import Mathlib

/-!
# EchoScan — formal model of the core scoring pipeline

A shallow embedding of the EchoScan repository's core numeric functions
(`src/detectors/sbsm.py`, `src/detectors/glyph.py`, `src/echoverifier.py`,
`src/main.py`, `src/quarantine_manager.py`, `src/vault/vault.py`) together
with theorems settling the specification claims about them.

Python floats are idealised as exact rationals (`ℚ`); `math.sqrt` is
idealised as `Real.sqrt` over `ℝ`.  Python `round(x, n)` (banker's rounding
on binary floats) is idealised as round-half-up on exact values; none of the
theorems below depend on the behaviour at exact rounding ties.
-/

/-! ## Rounding helper (Python `round(x, n)` idealised on `ℚ` / `ℝ`) -/

/-- Python `round(q, n)` idealised on exact rationals. -/
def round_to (n : ℕ) (q : ℚ) : ℚ := ((round (q * 10 ^ n) : ℤ) : ℚ) / 10 ^ n

/-- Python `round(x, n)` idealised on reals (used where `math.sqrt` appears). -/
noncomputable def round_to_real (n : ℕ) (x : ℝ) : ℝ :=
  ((round (x * 10 ^ n) : ℤ) : ℝ) / 10 ^ n

/-! ## `EchoVerifier._check_vault_permission` (src/echoverifier.py:272-274) -/

namespace EchoVerifierM

/-- `_check_vault_permission`: `echo_sense_score > 0.5 and ancestry_depth >= 2`. -/
def check_vault_permission (echo_sense_score : ℚ) (ancestry_depth : ℤ) : Bool :=
  decide (echo_sense_score > 0.5) && decide (ancestry_depth ≥ 2)

/-! ## `AncestryDepth.calculate_depth` (src/echoverifier.py:97-105) -/

/-- Python `int()` applied to a rational: truncation toward zero. -/
def int_trunc (q : ℚ) : ℤ := if q < 0 then -(⌊-q⌋) else ⌊q⌋

/-- Python `len(set(x))` for a string: number of distinct characters. -/
def distinct_count (s : String) : ℕ := s.toList.dedup.length

/-- `complexity = len(set(input_data)) / len(input_data) if input_data else 0`. -/
def char_diversity (s : String) : ℚ :=
  if s = "" then 0 else (distinct_count s : ℚ) / s.length

/-- `AncestryDepth.calculate_depth`: `int((complexity + hash_entropy) * 5)`
clamped to `[1, 10]` via `min(max(base_depth, 1), 10)`. -/
def calculate_depth (input_data sbsh_hash : String) : ℤ :=
  let complexity := char_diversity input_data
  let hash_entropy := char_diversity sbsh_hash
  let base_depth := int_trunc ((complexity + hash_entropy) * 5)
  min (max base_depth 1) 10

/-- The spec's wording of the depth formula, with `round` in place of the
code's `int()` truncation (for comparison with `calculate_depth`). -/
def calculate_depth_spec (input_data sbsh_hash : String) : ℤ :=
  min (max (round ((char_diversity input_data + char_diversity sbsh_hash) * 5)) 1) 10

end EchoVerifierM

/-! ## `glyph.run` (src/detectors/glyph.py:3-18) -/

namespace Glyph

/-- One uppercase hexadecimal digit (`'0'`-`'9'`, `'A'`-`'F'`) for `d < 16`. -/
def hex_digit (d : ℕ) : Char :=
  if d < 10 then Char.ofNat (48 + d) else Char.ofNat (55 + d)

/-- Python format `{n:04X}`: four-character zero-padded uppercase hex.
Valid rendering of the format for `n < 65536`; the code only passes
values `< 10000`. -/
def hex4 (n : ℕ) : List Char :=
  [hex_digit (n / 4096), hex_digit (n / 256 % 16), hex_digit (n / 16 % 16),
   hex_digit (n % 16)]

/-- `glyph.run` glyph id on a non-`None` input:
`f"GHX-{abs(hash(input_data)) % 10000:04X}"`.  Python's process-dependent
builtin `hash` is a parameter `h`. -/
def run_glyph_id (h : String → ℤ) (input_data : String) : String :=
  "GHX-" ++ String.mk (hex4 ((h input_data).natAbs % 10000))

/-- Whether a character is an uppercase hex digit (`[A-F0-9]`). -/
def is_upper_hex (c : Char) : Bool :=
  (decide (48 ≤ c.toNat) && decide (c.toNat ≤ 57)) ||
  (decide (65 ≤ c.toNat) && decide (c.toNat ≤ 70))

/-- The spec's regex `^GHX-[A-F0-9]{4}$` as a decidable string predicate. -/
def matches_glyph_pat (s : String) : Bool :=
  match s.toList with
  | 'G' :: 'H' :: 'X' :: '-' :: rest =>
      decide (rest.length = 4) && rest.all is_upper_hex
  | _ => false

end Glyph

/-! ## `EchoFold.generate_vector` (src/echoverifier.py:17-26) -/

namespace EchoFold

/-- Python slice `l[0::16]`: every 16th element. -/
def take_every_16 : List Char → List Char
  | [] => []
  | c :: rest => c :: take_every_16 (rest.drop 15)
termination_by l => l.length
decreasing_by
  simp only [List.length_cons, List.length_drop]
  omega

/-- `EchoFold.generate_vector`: for `i in range(16)`,
`val = sum(ord(c) * (i + 1) for c in combined[i::16]) / len(combined)` and the
entry is `round(val / 255.0, 6)`.  When `combined` is empty the division by
`len(combined)` raises `ZeroDivisionError`, modelled as `none`. -/
def generate_vector (input_data hash_result : String) : Option (List ℚ) :=
  let combined := (input_data ++ hash_result).toList
  if combined.length = 0 then none
  else some ((List.range 16).map (fun i =>
    round_to 6 ((((take_every_16 (combined.drop i)).map
      (fun c => (c.toNat : ℚ) * (i + 1))).sum / combined.length) / 255)))

open Classical in
/-- `EchoFold.cosine_similarity` (src/echoverifier.py:28-41): returns `0.0`
when the lengths differ or either norm is zero, else
`round(dot_product / (norm1 * norm2), 6)`. -/
noncomputable def cosine_similarity (vec1 vec2 : List ℝ) : ℝ :=
  if vec1.length ≠ vec2.length then 0
  else
    let dot_product := ((vec1.zip vec2).map (fun p => p.1 * p.2)).sum
    let norm1 := Real.sqrt ((vec1.map (fun a => a * a)).sum)
    let norm2 := Real.sqrt ((vec2.map (fun b => b * b)).sum)
    if norm1 = 0 ∨ norm2 = 0 then 0
    else round_to_real 6 (dot_product / (norm1 * norm2))

end EchoFold

/-! ## SBSM (src/detectors/sbsm.py) -/

namespace SBSM

/-- `digit_sum_base`: repeatedly take `value % base` and divide by `base`.
For `base ≤ 1` the source's `while` loop would not terminate; only bases
6-9 are ever used. -/
def digit_sum_base (value base : ℕ) : ℕ :=
  if h : value = 0 then 0
  else if hb : base ≤ 1 then 0
  else value % base + digit_sum_base (value / base) base
termination_by value
decreasing_by exact Nat.div_lt_self (Nat.pos_of_ne_zero h) (by omega)

/-- `string_to_numeric_sequence`: `ord` of each character. -/
def string_to_numeric_sequence (input_string : String) : List ℕ :=
  input_string.toList.map Char.toNat

/-- `range(6, 10)`: the bases 6-9 in iteration order of the code's dict. -/
def bases : List ℕ := [6, 7, 8, 9]

/-- `calculate_digit_sum_sequences`: per-base digit-sum sequence. -/
def calculate_digit_sum_sequences (numeric_sequence : List ℕ) :
    List (ℕ × List ℕ) :=
  bases.map (fun base =>
    (base, numeric_sequence.map (fun v => digit_sum_base v base)))

/-- `calculate_entropy_drift`: mean absolute successive difference of the
digit sums (0.0 for sequences shorter than 2). -/
def calculate_entropy_drift (digit_sums : List ℕ) : ℚ :=
  if digit_sums.length < 2 then 0
  else
    let differences := (digit_sums.zip digit_sums.tail).map
      (fun p => ((p.2 : ℤ) - p.1).natAbs)
    if differences = [] then 0
    else (differences.sum : ℚ) / differences.length

/-- The `per_base_drifts` dict built in `sbsm_matrix` steps 3. -/
def per_base_drifts (input_string : String) : List (ℕ × ℚ) :=
  (calculate_digit_sum_sequences (string_to_numeric_sequence input_string)).map
    (fun p => (p.1, calculate_entropy_drift p.2))

/-- The `global_drift` of `sbsm_matrix` step 4: mean of the per-base drifts. -/
def global_drift (input_string : String) : ℚ :=
  ((per_base_drifts input_string).map Prod.snd).sum /
    (per_base_drifts input_string).length

/-- `create_base_position_matrix`: `matrix[b][p] = base * (p+1) * digitsum / 1000`.
The sequence length is taken from the first base's sequence (all sequences
have equal length, so out-of-range indexing cannot occur; `getD` mirrors it). -/
def create_base_position_matrix (digit_sequences : List (ℕ × List ℕ)) :
    List (List ℚ) :=
  match digit_sequences with
  | [] => []
  | (_, s0) :: _ =>
      digit_sequences.map (fun p =>
        (List.range s0.length).map (fun pos =>
          ((p.1 * (pos + 1) * p.2.getD pos 0 : ℕ) : ℚ) / 1000))

/-- The column of the matrix at a given position. -/
def col_values (matrix : List (List ℚ)) (pos : ℕ) : List ℚ :=
  matrix.map (fun row => row.getD pos 0)

/-- Population variance as computed inline by the source (in
`calculate_stability_vector` and `detect_anomaly`): mean of squared
deviations from the mean. -/
def variance (l : List ℚ) : ℚ :=
  ((l.map (fun x => (x - l.sum / l.length) ^ 2)).sum) / l.length

/-- `calculate_stability_vector`: per-position standard deviation across
bases (empty for an empty or degenerate matrix). -/
noncomputable def calculate_stability_vector (matrix : List (List ℚ)) :
    List ℝ :=
  match matrix with
  | [] => []
  | row0 :: _ =>
      if row0 = [] then []
      else (List.range row0.length).map (fun pos =>
        Real.sqrt ((variance (col_values matrix pos) : ℚ)))

/-- `detect_anomaly` (src/detectors/sbsm.py:92-124) with its `threshold`
parameter (default 0.012 at the call site). -/
def detect_anomaly (global_drift : ℚ) (per_base : List (ℕ × ℚ))
    (threshold : ℚ) : String :=
  if global_drift < 0.001 then "Synthetic – Suspicious uniformity"
  else if global_drift > 10 then "Synthetic – Extreme drift detected"
  else
    let adaptive_threshold := max threshold (global_drift * 0.1)
    let high_drift_bases :=
      per_base.filter (fun p => decide (p.2 > adaptive_threshold))
    let drift_values := per_base.map Prod.snd
    if 4 ≤ drift_values.length ∧ variance drift_values < 0.01 ∧
        global_drift > 0.5 then
      "Borderline – Uniform cross-base pattern"
    else if high_drift_bases.length = 0 then "Authentic – Stable drift"
    else if high_drift_bases.length ≤ 2 then "Authentic – Normal variation"
    else "Borderline – Elevated drift pattern"

/-- The result dict of `sbsm_matrix` (per-base keys kept as numerals). -/
structure SBSMResult where
  delta_s : ℚ
  per_base : List (ℕ × ℚ)
  matrix : List (List ℚ)
  stability_ratio : ℝ
  status : String

/-- `sbsm_matrix` (src/detectors/sbsm.py:127-181). -/
noncomputable def sbsm_matrix (input_string : String) : SBSMResult :=
  if input_string = "" then
    ⟨0, [(6, 0), (7, 0), (8, 0), (9, 0)], [], 0, "Error – Empty input"⟩
  else
    let numeric_sequence := string_to_numeric_sequence input_string
    let digit_sequences := calculate_digit_sum_sequences numeric_sequence
    let pbd := digit_sequences.map (fun p => (p.1, calculate_entropy_drift p.2))
    let gd := (pbd.map Prod.snd).sum / pbd.length
    let matrix := create_base_position_matrix digit_sequences
    let stability_vector := calculate_stability_vector matrix
    let stability_ratio : ℝ :=
      if stability_vector.isEmpty then 0
      else stability_vector.sum / stability_vector.length
    let status := detect_anomaly gd pbd 0.012
    ⟨round_to 4 gd, pbd.map (fun p => (p.1, round_to 4 p.2)),
     matrix.map (fun row => row.map (round_to 6)),
     round_to_real 4 stability_ratio, status⟩

/-- The claim's six-way classification rule written over the derived drift
quantities (with the code's exact status strings), for comparison with the
status computed by `sbsm_matrix`. -/
def sbsm_claim_status (s : String) : String :=
  if global_drift s < 0.001 then "Synthetic – Suspicious uniformity"
  else if global_drift s > 10 then "Synthetic – Extreme drift detected"
  else if variance ((per_base_drifts s).map Prod.snd) < 0.01 ∧
      global_drift s > 0.5 then
    "Borderline – Uniform cross-base pattern"
  else if (((per_base_drifts s).map Prod.snd).filter
      (fun d => decide (d > max 0.012 (global_drift s * 0.1)))).length = 0 then
    "Authentic – Stable drift"
  else if (((per_base_drifts s).map Prod.snd).filter
      (fun d => decide (d > max 0.012 (global_drift s * 0.1)))).length ≤ 2 then
    "Authentic – Normal variation"
  else "Borderline – Elevated drift pattern"

end SBSM

/-! ## `calculate_echo_score` (src/main.py:131-157)

A results dictionary is modelled as an association list from module name to
either `some` module-result dict or `none` for a non-dict value (the code's
`isinstance(module_result, dict)` check). -/

namespace MainM

/-- The optional fields of a module result that `calculate_echo_score` reads. -/
structure ModuleResult where
  echo_score_penalty : Option ℚ
  echo_score_modifier : Option ℚ
  echo_sense : Option ℚ

/-- Per-module contribution:
`module_result.get("echo_score_penalty", 0) + module_result.get("echo_score_modifier", 0)`
for a dict value, `0` for a non-dict value. -/
def penalty_and_modifier (v : Option ModuleResult) : ℚ :=
  match v with
  | some m => m.echo_score_penalty.getD 0 + m.echo_score_modifier.getD 0
  | none => 0

/-- `calculate_echo_score`: base 50.0, plus every dict module's penalty and
modifier, plus `(echo_sense - 0.5) * 40` when an `echoverifier` dict result is
present, clamped by `max(0.0, min(100.0, base_score))`. -/
def calculate_echo_score (results : List (String × Option ModuleResult)) : ℚ :=
  let with_modules :=
    results.foldl (fun acc p => acc + penalty_and_modifier p.2) 50
  let with_ev :=
    match results.lookup "echoverifier" with
    | some (some m) => with_modules + (m.echo_sense.getD 0.5 - 0.5) * 40
    | _ => with_modules
  max 0 (min 100 with_ev)

/-- The claim's formula for the echo score: base 50.0 plus the sum of the
per-module penalty/modifier contributions plus the echoverifier influence,
with no clamping (for comparison with `calculate_echo_score`). -/
def echo_score_spec (results : List (String × Option ModuleResult)) : ℚ :=
  50 + (results.map (fun p => penalty_and_modifier p.2)).sum +
    (match results.lookup "echoverifier" with
     | some (some m) => (m.echo_sense.getD 0.5 - 0.5) * 40
     | _ => 0)

end MainM

/-! ## `QuarantineManager` (src/quarantine_manager.py:34-81, 173-203) -/

namespace Quarantine

/-- The SBSM entry of `result["metadata"]["sbsm"]` as read by
`should_quarantine` (fields default to `""` / `0.0` via `.get`). -/
structure SbsmMeta where
  source_classification : String
  drift_score : ℚ

/-- The fields of an EchoVerifier result dict that `should_quarantine` reads;
`metadata_sbsm = none` models a missing `metadata` key or a non-dict
`sbsm` value. -/
structure QResult where
  delta_s : ℚ
  glyph_id : String
  metadata_sbsm : Option SbsmMeta
  verdict : String
  echo_sense : ℚ

/-- The `reasons` list accumulated by `should_quarantine` (the interpolated
numeric values in the reason strings are elided). -/
def quarantine_reasons (result : QResult) : List String :=
  (if result.delta_s > 0.02 then ["High drift detected"] else []) ++
  (if result.glyph_id = "unclassified" ∨ result.glyph_id = "" then
    ["Unclassified glyph detected"] else []) ++
  (match result.metadata_sbsm with
   | some m =>
      (if m.source_classification = "AI-Generated" ∨
          m.source_classification = "Questionable" then
        ["Symbolic anomaly"] else []) ++
      (if m.drift_score > 0.02 then ["SBSM drift anomaly"] else [])
   | none => []) ++
  (if result.verdict = "Hallucination" then ["Hallucination verdict"] else []) ++
  (if result.echo_sense < 0.1 then ["Low authenticity score"] else [])

/-- `should_quarantine`: `(len(reasons) > 0, "; ".join(reasons))`
(`"No quarantine needed"` when empty). -/
def should_quarantine (result : QResult) : Bool × String :=
  let reasons := quarantine_reasons result
  (!reasons.isEmpty,
   if reasons.isEmpty then "No quarantine needed"
   else String.intercalate "; " reasons)

/-- The quarantine information `process_result` attaches to the result. -/
structure QuarantineInfo where
  quarantined : Bool
  reason : Option String
  filepath : Option String

/-- The pure part of `process_result`: the quarantine info attached to the
result.  `write_ok` is an oracle for whether the on-disk write in
`quarantine_input` succeeds (file I/O is outside the model). -/
def process_result_info (result : QResult) (write_ok : Bool) : QuarantineInfo :=
  let sq := should_quarantine result
  { quarantined := sq.1,
    reason := if sq.1 then some sq.2 else none,
    filepath := if sq.1 && write_ok then some "quarantine-file" else none }

end Quarantine

/-! ## `Vault.log` / `Vault._backup_log` (src/vault/vault.py:44-75, 104-149)

The entry dict is an abstract type `α`.  The `random.random() < 0.1`
simulated failure inside `_try_vault_log` and the backup file write are
nondeterministic, modelled by oracles: `fail_at attempt` says whether the
attempt numbered `attempt` raises, and `backup_write_ok` whether the backup
JSON write succeeds. -/

namespace Vault

/-- `_backup_log`: appends the entry (with backup metadata) when backup is
enabled and the file write succeeds; otherwise leaves the entries unchanged
and reports failure. -/
def backup_log {α : Type} (entries : List α) (e : α)
    (backup_enabled backup_write_ok : Bool) : List α × Bool :=
  if backup_enabled = false then (entries, false)
  else if backup_write_ok then (entries ++ [e], true)
  else (entries, false)

/-- The retry loop of `Vault.log` over the attempt numbers
`range(max_retries + 1)`: a successful `_try_vault_log` appends the entry; a
raising attempt retries while `attempt < max_retries` and otherwise falls
back to `_backup_log`. -/
def log_loop {α : Type} (entries : List α) (e : α) (fail_at : ℕ → Bool)
    (max_retries : ℕ) (backup_enabled backup_write_ok : Bool) :
    List ℕ → List α × Bool
  | [] => (entries, false)
  | attempt :: rest =>
    if fail_at attempt then
      if attempt < max_retries then
        log_loop entries e fail_at max_retries backup_enabled backup_write_ok
          rest
      else backup_log entries e backup_enabled backup_write_ok
    else (entries ++ [e], true)

/-- `Vault.log`: iterate the retry loop over
`for attempt in range(max_retries + 1)`. -/
def log {α : Type} (entries : List α) (e : α) (fail_at : ℕ → Bool)
    (max_retries : ℕ) (backup_enabled backup_write_ok : Bool) :
    List α × Bool :=
  log_loop entries e fail_at max_retries backup_enabled backup_write_ok
    (List.range (max_retries + 1))

end Vault

/-! ## Helper lemmas -/

/-- The zipped product sum is symmetric in its two list arguments. -/
lemma zip_mul_sum_comm (a b : List ℝ) :
    ((a.zip b).map (fun p => p.1 * p.2)).sum =
      ((b.zip a).map (fun p => p.1 * p.2)).sum := by
  induction a generalizing b with
  | nil => cases b <;> simp
  | cons x xs ih =>
      cases b with
      | nil => simp
      | cons y ys => simp only [List.zip_cons_cons, List.map_cons,
          List.sum_cons, ih ys, mul_comm x y]

/-- A list with a non-zero element has positive sum of squares. -/
lemma sum_sq_pos (a : List ℝ) (h : ∃ x ∈ a, x ≠ 0) :
    0 < ((a.map (fun y => y * y)).sum) := by
  induction a with
  | nil => simp at h
  | cons x xs ih =>
      have hxs : 0 ≤ ((xs.map (fun y => y * y)).sum) :=
        List.sum_nonneg (by
          intro z hz
          obtain ⟨w, _, rfl⟩ := List.mem_map.mp hz
          exact mul_self_nonneg w)
      simp only [List.map_cons, List.sum_cons]
      rcases h with ⟨y, hy, hy0⟩
      rcases List.mem_cons.mp hy with rfl | hmem
      · have hyy : 0 < y * y := by
          rcases hy0.lt_or_lt with h | h
          · exact mul_pos_of_neg_of_neg h h
          · exact mul_pos h h
        linarith
      · have := ih ⟨y, hmem, hy0⟩
        have hx : 0 ≤ x * x := mul_self_nonneg x
        linarith

/-- Filtering pairs on a threshold test of the second component has the same
length as filtering the mapped second components. -/
lemma filter_gt_snd_length (l : List (ℕ × ℚ)) (t : ℚ) :
    (l.filter (fun p => decide (p.2 > t))).length =
      ((l.map Prod.snd).filter (fun d => decide (d > t))).length := by
  induction l with
  | nil => rfl
  | cons x xs ih => by_cases h : x.2 > t <;> simp [List.filter_cons, h, ih]

/-- Folding addition of `f` over a list starting from `c` sums the mapped list. -/
lemma foldl_add_eq {α : Type} (f : α → ℚ) (c : ℚ) (l : List α) :
    l.foldl (fun acc x => acc + f x) c = c + (l.map f).sum := by
  induction l generalizing c with
  | nil => simp
  | cons x xs ih => simp [ih, add_assoc]

/-! ## Theorems for claims C2, C4, C6, C10 -/

/-- C2: the vault_permission value is true iff `echo_sense > 0.5` and
`ancestry_depth ≥ 2`, both directions of the biconditional. -/
theorem vault_permission_iff (echo_sense_score : ℚ) (ancestry_depth : ℤ) :
    EchoVerifierM.check_vault_permission echo_sense_score ancestry_depth = true ↔
      (echo_sense_score > 0.5 ∧ ancestry_depth ≥ 2) := by
  simp [EchoVerifierM.check_vault_permission]

/-- C4 (counterexample to the claim as stated): on input `"abca"` with hash
`"xyzx"` both diversity terms are `3/4`, so `(3/4 + 3/4) * 5 = 7.5`; the code's
`int()` truncation gives depth 7 while the claimed `round` gives 8. -/
theorem calculate_depth_ne_round_spec :
    EchoVerifierM.calculate_depth "abca" "xyzx" = 7 ∧
      EchoVerifierM.calculate_depth_spec "abca" "xyzx" = 8 := by
  have hd1 : EchoVerifierM.distinct_count "abca" = 3 := rfl
  have hd2 : EchoVerifierM.distinct_count "xyzx" = 3 := rfl
  have hl1 : ("abca" : String).length = 4 := rfl
  have hl2 : ("xyzx" : String).length = 4 := rfl
  have hc1 : EchoVerifierM.char_diversity "abca" = 3 / 4 := by
    rw [EchoVerifierM.char_diversity, if_neg (by decide), hd1, hl1]; norm_num
  have hc2 : EchoVerifierM.char_diversity "xyzx" = 3 / 4 := by
    rw [EchoVerifierM.char_diversity, if_neg (by decide), hd2, hl2]; norm_num
  have harg : (EchoVerifierM.char_diversity "abca" +
      EchoVerifierM.char_diversity "xyzx") * 5 = (15 : ℚ) / 2 := by
    rw [hc1, hc2]; norm_num
  have hfl : ⌊(15 : ℚ) / 2⌋ = 7 := by
    rw [Int.floor_eq_iff]
    norm_num
  constructor
  · show min (max (EchoVerifierM.int_trunc _) 1) 10 = 7
    rw [harg, EchoVerifierM.int_trunc, if_neg (by norm_num), hfl]
    norm_num
  · show min (max (round _) 1) 10 = 8
    rw [harg, round_eq, show ((15 : ℚ) / 2 + 1 / 2) = ((8 : ℤ) : ℚ) by norm_num,
      Int.floor_intCast]
    norm_num

/-- C4 (amended): ancestry depth equals
`clamp(int((char_diversity + hash_entropy) * 5), 1, 10)` with `int()`
truncation (not `round`), and the result always lies in `[1, 10]`. -/
theorem calculate_depth_clamped_trunc (input_data sbsh_hash : String) :
    EchoVerifierM.calculate_depth input_data sbsh_hash =
      min (max (EchoVerifierM.int_trunc
        ((EchoVerifierM.char_diversity input_data +
          EchoVerifierM.char_diversity sbsh_hash) * 5)) 1) 10 ∧
    1 ≤ EchoVerifierM.calculate_depth input_data sbsh_hash ∧
    EchoVerifierM.calculate_depth input_data sbsh_hash ≤ 10 := by
  refine ⟨rfl, ?_, ?_⟩
  · exact le_min (le_max_right _ _) (by norm_num)
  · exact min_le_right _ _

/-- C6: for every hash function and every (non-`None`) input string, the glyph
id produced by `glyph.run` matches `^GHX-[A-F0-9]{4}$`. -/
theorem glyph_id_matches_pat (h : String → ℤ) (input_data : String) :
    Glyph.matches_glyph_pat (Glyph.run_glyph_id h input_data) = true := by
  have hhex : ∀ k, k < 16 → Glyph.is_upper_hex (Glyph.hex_digit k) = true := by
    decide
  have hn : (h input_data).natAbs % 10000 < 10000 := Nat.mod_lt _ (by norm_num)
  set n := (h input_data).natAbs % 10000 with hn_def
  have hlist : (Glyph.run_glyph_id h input_data).toList =
      'G' :: 'H' :: 'X' :: '-' :: Glyph.hex4 n := by
    simp [Glyph.run_glyph_id, String.toList, String.data_append, String.mk]
  simp only [Glyph.matches_glyph_pat, hlist, Glyph.hex4, Bool.and_eq_true,
    decide_eq_true_eq, List.all_cons, List.all_nil, Bool.and_true]
  refine ⟨rfl, hhex _ ?_, hhex _ (Nat.mod_lt _ (by norm_num)),
    hhex _ (Nat.mod_lt _ (by norm_num)), hhex _ (Nat.mod_lt _ (by norm_num))⟩
  rw [Nat.div_lt_iff_lt_mul (by norm_num)]
  omega

/-- C10: whenever the concatenation of input and hash is non-empty,
`EchoFold.generate_vector` returns exactly 16 entries; on two empty strings the
unguarded division by the combined length makes it raise (modelled `none`). -/
theorem generate_vector_len16_or_raises (input_data hash_result : String) :
    (input_data ++ hash_result ≠ "" →
      ∃ v, EchoFold.generate_vector input_data hash_result = some v ∧
        v.length = 16) ∧
    EchoFold.generate_vector "" "" = none := by
  constructor
  · intro hne
    have hlen : (input_data ++ hash_result).toList.length ≠ 0 := by
      intro h0
      apply hne
      have hdata : (input_data ++ hash_result).data = "".data := by
        simpa using List.length_eq_zero.mp h0
      calc input_data ++ hash_result
          = String.mk (input_data ++ hash_result).data := rfl
        _ = String.mk ("".data) := by rw [hdata]
        _ = "" := rfl
    cases hv : EchoFold.generate_vector input_data hash_result with
    | none =>
        exfalso
        simp only [EchoFold.generate_vector, if_neg hlen] at hv
        exact Option.some_ne_none _ hv
    | some v =>
        refine ⟨v, rfl, ?_⟩
        simp only [EchoFold.generate_vector, if_neg hlen,
          Option.some.injEq] at hv
        rw [← hv]
        simp
  · rfl

/-- C10 witness: at input `"a"` and hash `""` the hypothesis holds and the
vector has 16 entries. -/
theorem generate_vector_len16_witness :
    ("a" ++ "" ≠ "") ∧
      ∃ v, EchoFold.generate_vector "a" "" = some v ∧ v.length = 16 :=
  ⟨by decide, (generate_vector_len16_or_raises "a" "").1 (by decide)⟩

/-- The zipped self-product sum equals the sum of squares. -/
lemma zip_self_mul_sum (a : List ℝ) :
    ((a.zip a).map (fun p => p.1 * p.2)).sum = ((a.map (fun y => y * y)).sum) := by
  induction a with
  | nil => simp
  | cons x xs ih => simp [ih]

/-- C5: cosine similarity is symmetric, and equals 1.0 on any pair of equal
non-zero vectors. -/
theorem cosine_similarity_symm_and_self :
    (∀ a b : List ℝ,
        EchoFold.cosine_similarity a b = EchoFold.cosine_similarity b a) ∧
    (∀ a : List ℝ, (∃ x ∈ a, x ≠ 0) →
        EchoFold.cosine_similarity a a = 1) := by
  constructor
  · intro a b
    by_cases h : a.length = b.length
    · have hg1 : ¬ a.length ≠ b.length := fun hc => hc h
      have hg2 : ¬ b.length ≠ a.length := fun hc => hc h.symm
      simp only [EchoFold.cosine_similarity]
      rw [if_neg hg1, if_neg hg2]
      by_cases hn : Real.sqrt ((a.map (fun a => a * a)).sum) = 0 ∨
          Real.sqrt ((b.map (fun b => b * b)).sum) = 0
      · rw [if_pos hn, if_pos (Or.symm hn)]
      · rw [if_neg hn, if_neg (fun hc => hn (Or.symm hc))]
        exact congrArg (round_to_real 6)
          (by rw [zip_mul_sum_comm a b, mul_comm])
    · have h1 : a.length ≠ b.length := h
      have h2 : b.length ≠ a.length := fun hc => h hc.symm
      simp only [EchoFold.cosine_similarity]
      rw [if_pos h1, if_pos h2]
  · intro a ha
    have hpos := sum_sq_pos a ha
    have hsne : Real.sqrt ((a.map (fun a => a * a)).sum) ≠ 0 := by
      rw [ne_eq, Real.sqrt_eq_zero (le_of_lt hpos)]
      exact ne_of_gt hpos
    simp only [EchoFold.cosine_similarity]
    rw [if_neg (by simp), if_neg (fun hc => hsne (hc.elim id id))]
    rw [zip_self_mul_sum, Real.mul_self_sqrt (le_of_lt hpos),
      div_self (ne_of_gt hpos)]
    rw [round_to_real, show ((1 : ℝ) * 10 ^ 6) = ((10 ^ 6 : ℤ) : ℝ) by norm_num,
      round_intCast]
    norm_num

/-- C5 witness: the vector `[1]` is non-zero and its self-similarity is 1. -/
theorem cosine_similarity_self_witness :
    (∃ x ∈ [(1 : ℝ)], x ≠ 0) ∧
      EchoFold.cosine_similarity [(1 : ℝ)] [(1 : ℝ)] = 1 :=
  ⟨⟨1, by simp, one_ne_zero⟩,
   cosine_similarity_symm_and_self.2 [(1 : ℝ)] ⟨1, by simp, one_ne_zero⟩⟩

/-- C7 (counterexample to the claim as stated): a single module with penalty
-100 drives the unclamped sum to -50, but the code clamps the score to
`[0, 100]` and returns 0; the claim's formula (without clamping) gives -50. -/
theorem echo_score_claim_counterexample :
    MainM.calculate_echo_score
        [("m", some ⟨some (-100), none, none⟩)] = 0 ∧
      MainM.echo_score_spec
        [("m", some ⟨some (-100), none, none⟩)] = -50 := by
  have hlk : List.lookup "echoverifier"
      ([("m", some (⟨some (-100), none, none⟩ : MainM.ModuleResult))]) =
        none := by
    simp [List.lookup]
  constructor
  · simp only [MainM.calculate_echo_score, List.foldl, hlk,
      MainM.penalty_and_modifier, Option.getD_some, Option.getD_none]
    norm_num
  · simp only [MainM.echo_score_spec, List.map, List.sum_cons, List.sum_nil,
      hlk, MainM.penalty_and_modifier, Option.getD_some, Option.getD_none]
    norm_num

/-- C7 (amended): the echo score equals the clamp to `[0, 100]` of the base
score 50.0 plus the sum over every dict module result of its penalty and
modifier fields (defaulting to 0) plus, when an echoverifier dict result is
present, `(echo_sense - 0.5) * 40`. -/
theorem echo_score_eq_clamped_spec
    (results : List (String × Option MainM.ModuleResult)) :
    MainM.calculate_echo_score results =
      max 0 (min 100 (MainM.echo_score_spec results)) := by
  simp only [MainM.calculate_echo_score, MainM.echo_score_spec]
  rw [foldl_add_eq]
  cases hl : results.lookup "echoverifier" with
  | none => simp
  | some v =>
      cases v with
      | none => simp
      | some m => simp

/-- C8 (counterexample to the claim as stated): a result whose SBSM metadata
classifies the source as "Questionable" is quarantined by the code although
none of the claim's trigger conditions holds (and `should_quarantine` never
inspects the input, so no input-emptiness/length condition can hold either). -/
theorem should_quarantine_claim_counterexample :
    (Quarantine.should_quarantine
        ⟨0, "GHX-0001", some ⟨"Questionable", 0⟩, "", 0.5⟩).1 = true ∧
      ¬((0 : ℚ) > 0.02) ∧ "GHX-0001" ≠ "unclassified" ∧ "GHX-0001" ≠ "" ∧
      "Questionable" ≠ "AI-Generated" ∧ ¬((0 : ℚ) > 0.02) ∧
      "" ≠ "Hallucination" ∧ ¬((0.5 : ℚ) < 0.1) := by
  refine ⟨?_, by norm_num, by decide, by decide, by decide, by norm_num,
    by decide, by norm_num⟩
  simp [Quarantine.should_quarantine, Quarantine.quarantine_reasons]

/-- C8 (amended): `should_quarantine` fires iff `delta_s > 0.02`, the glyph id
is "unclassified" or empty, the SBSM metadata source classification is
"AI-Generated" or "Questionable", the SBSM metadata drift score exceeds 0.02,
the verdict is "Hallucination", or `echo_sense < 0.1` — input length is never
checked; and `process_result` flags the result with exactly that decision. -/
theorem should_quarantine_iff (r : Quarantine.QResult) (write_ok : Bool) :
    ((Quarantine.should_quarantine r).1 = true ↔
      (r.delta_s > 0.02 ∨
       (r.glyph_id = "unclassified" ∨ r.glyph_id = "") ∨
       (∃ m, r.metadata_sbsm = some m ∧
          (m.source_classification = "AI-Generated" ∨
           m.source_classification = "Questionable")) ∨
       (∃ m, r.metadata_sbsm = some m ∧ m.drift_score > 0.02) ∨
       r.verdict = "Hallucination" ∨ r.echo_sense < 0.1)) ∧
    (Quarantine.process_result_info r write_ok).quarantined =
      (Quarantine.should_quarantine r).1 := by
  obtain ⟨ds, gid, ms, vd, es⟩ := r
  refine ⟨?_, rfl⟩
  cases ms with
  | none =>
      simp only [Quarantine.should_quarantine, Quarantine.quarantine_reasons]
      split_ifs <;> simp_all
  | some m =>
      simp only [Quarantine.should_quarantine, Quarantine.quarantine_reasons]
      split_ifs <;> simp_all

/-- C9: `Vault.log` either leaves the in-memory entries unchanged (when every
attempt raises and the backup path fails or is disabled) or appends exactly
the new entry at the end (direct success or backup path); in both cases the
previous entries are a prefix of the new entries. -/
theorem vault_log_append_only {α : Type} (entries : List α) (e : α)
    (fail_at : ℕ → Bool) (max_retries : ℕ)
    (backup_enabled backup_write_ok : Bool) :
    ((Vault.log entries e fail_at max_retries backup_enabled
        backup_write_ok).1 = entries ∨
     (Vault.log entries e fail_at max_retries backup_enabled
        backup_write_ok).1 = entries ++ [e]) ∧
    entries <+: (Vault.log entries e fail_at max_retries backup_enabled
        backup_write_ok).1 := by
  have hloop : ∀ attempts : List ℕ,
      (Vault.log_loop entries e fail_at max_retries backup_enabled
          backup_write_ok attempts).1 = entries ∨
      (Vault.log_loop entries e fail_at max_retries backup_enabled
          backup_write_ok attempts).1 = entries ++ [e] := by
    intro attempts
    induction attempts with
    | nil => exact Or.inl rfl
    | cons a rest ih =>
        simp only [Vault.log_loop]
        split_ifs with hf hlt
        · exact ih
        · unfold Vault.backup_log
          split_ifs <;> simp
        · simp
  have h : (Vault.log entries e fail_at max_retries backup_enabled
        backup_write_ok).1 = entries ∨
      (Vault.log entries e fail_at max_retries backup_enabled
        backup_write_ok).1 = entries ++ [e] :=
    hloop (List.range (max_retries + 1))
  refine ⟨h, ?_⟩
  rcases h with h | h
  · rw [h]
  · rw [h]
    exact List.prefix_append entries [e]

/-- C3: on the empty string the early-return branch of `sbsm_matrix` yields
drift 0.0, four zero per-base drifts, an empty matrix, stability ratio 0.0
and the exact status string "Error – Empty input". -/
theorem sbsm_empty_input :
    SBSM.sbsm_matrix "" =
      ⟨0, [(6, 0), (7, 0), (8, 0), (9, 0)], [], 0, "Error – Empty input"⟩ :=
  rfl

/-- C1 (counterexample to the claim as stated): on input `"a"` every digit-sum
sequence has length 1, so every drift is 0 and the suspicious-uniformity
branch fires; the code's status string is "Synthetic – Suspicious uniformity",
which is none of the claim's six quoted labels (they differ in
capitalisation, and the extreme-drift label also in wording). -/
theorem sbsm_status_label_counterexample :
    (SBSM.sbsm_matrix "a").status = "Synthetic – Suspicious uniformity" ∧
      ((SBSM.sbsm_matrix "a").status ≠ "Synthetic – suspicious uniformity" ∧
       (SBSM.sbsm_matrix "a").status ≠ "Synthetic – extreme drift" ∧
       (SBSM.sbsm_matrix "a").status ≠ "Borderline – uniform cross-base pattern" ∧
       (SBSM.sbsm_matrix "a").status ≠ "Authentic – stable drift" ∧
       (SBSM.sbsm_matrix "a").status ≠ "Authentic – normal variation" ∧
       (SBSM.sbsm_matrix "a").status ≠ "Borderline – elevated drift pattern") := by
  have hne : ("a" : String) ≠ "" := by decide
  have hseq : SBSM.string_to_numeric_sequence "a" = [97] := rfl
  have hstat : (SBSM.sbsm_matrix "a").status = "Synthetic – Suspicious uniformity" := by
    simp only [SBSM.sbsm_matrix, if_neg hne, hseq,
      SBSM.calculate_digit_sum_sequences, SBSM.bases,
      SBSM.calculate_entropy_drift, SBSM.detect_anomaly]
    norm_num
  refine ⟨hstat, ?_, ?_, ?_, ?_, ?_, ?_⟩ <;> rw [hstat] <;> decide

/-- C1 (amended): for every non-empty input the status of `sbsm_matrix` is
exactly the six-way classification of the claim's threshold rules, checked in
the claim's priority order, with the code's exact status strings. -/
theorem sbsm_status_classification (s : String) (hs : s ≠ "") :
    (SBSM.sbsm_matrix s).status = SBSM.sbsm_claim_status s := by
  have hstat : (SBSM.sbsm_matrix s).status =
      SBSM.detect_anomaly (SBSM.global_drift s) (SBSM.per_base_drifts s)
        0.012 := by
    simp only [SBSM.sbsm_matrix, if_neg hs]
    rfl
  have hlen : ((SBSM.per_base_drifts s).map Prod.snd).length = 4 := by
    simp [SBSM.per_base_drifts, SBSM.calculate_digit_sum_sequences, SBSM.bases]
  rw [hstat]
  simp only [SBSM.detect_anomaly, SBSM.sbsm_claim_status,
    filter_gt_snd_length, hlen, le_refl, true_and]

/-- C1 witness: instantiation of the classification theorem at the concrete
non-empty input `"ab"`. -/
theorem sbsm_status_classification_witness :
    ("ab" ≠ "") ∧
      (SBSM.sbsm_matrix "ab").status = SBSM.sbsm_claim_status "ab" :=
  ⟨by decide, sbsm_status_classification "ab" (by decide)⟩
